import Mathlib

/-!
Shallow embedding of the Bluetooth/phone service of
`src/services/bluetooth.py` (class `BluetoothService`), the single piece of
stateful business logic of the repository: call lifecycle (idle, outgoing,
incoming, active), device registry connect/disconnect, bounded call history,
and the background drift tick.

Modelling conventions:
* Python `time.time()` timestamps are `Int` parameters (`now`) passed to each
  operation at the point the source calls `time.time()`.
* The Python dict `paired_devices` (insertion-ordered, keyed by id) is a
  `List Device`; `active_device`, a Python reference aliasing one registry
  entry, is the index of that entry (`Option Nat`), so that mutations through
  the alias (`last_connected` stamping, battery/signal drift) hit the registry
  entry exactly as in the source.
* Call payload dicts are `Option CurrentCall`; completed-call dicts (after
  `end_call` / `_auto_miss_call` add `end_time` and `type`) are `CallRecord`.
* Python truthiness of optional string arguments (`if device_id`,
  `if contact_id`) is `strTruthy`: `None` and `""` are falsy.
* A Python `KeyError` (reading a missing dict key) is modelled as an explicit
  `raised` boolean returned next to the post-exception state: the mutations
  executed before the raising read persist, as they do on the live object
  after the background thread dies.
-/

inductive BluetoothDeviceType where
  | PHONE
  | AUDIO
  | OTHER
deriving DecidableEq, Repr

inductive CallStatus where
  | IDLE
  | INCOMING
  | OUTGOING
  | ACTIVE
  | HELD
  | MISSED
deriving DecidableEq, Repr

/-- A paired device dict. `signal` and `last_connected` are `Option` because
sample device2 carries no `"signal"` key and `connect` reads
`d.get("last_connected", 0)` with a default. -/
structure Device where
  id : String
  name : String
  type : BluetoothDeviceType
  battery : Int
  signal : Option Int
  last_connected : Option Int
deriving DecidableEq, Repr

structure Contact where
  id : String
  name : String
  number : String
deriving DecidableEq, Repr

/-- The in-flight call payload dict, as created by `make_call` /
`_simulate_incoming_call` (keys `number`, `name`, `start_time`, `duration`). -/
structure CurrentCall where
  number : Option String
  name : Option String
  start_time : Int
  duration : Int
deriving DecidableEq, Repr

/-- A completed call dict as stored in `call_history`: the payload plus the
`end_time` and `type` keys added at termination. -/
structure CallRecord where
  number : Option String
  name : Option String
  start_time : Int
  end_time : Int
  duration : Int
  type : String
deriving DecidableEq, Repr

/-- The mutable fields of `BluetoothService` that the call/device logic
touches (`running`/`thread` bookkeeping is omitted: no claim concerns it). -/
structure BTState where
  connected : Bool
  paired_devices : List Device
  active_device : Option Nat
  call_status : CallStatus
  current_call : Option CurrentCall
  call_history : List CallRecord
  contacts : List Contact
deriving DecidableEq, Repr

/-- Python truthiness of an optional string: `None` and `""` are falsy. -/
def strTruthy : Option String → Bool
  | none => false
  | some s => if s = "" then false else true

/-- The device the `active_device` reference points at, if any. -/
def activeDev (s : BTState) : Option Device :=
  match s.active_device with
  | none => none
  | some i => s.paired_devices.get? i

/-- Index and value of the first registry entry attaining the maximum
`last_connected` key (missing key defaults to 0, as in
`d.get("last_connected", 0)`).  This is `sorted(..., reverse=True)[0]` of the
source: Python's sort is stable, so the descending sort puts the
first-in-insertion-order maximum first. -/
def bestIdx : List Device → Option (Nat × Device)
  | [] => none
  | d :: rest =>
    match bestIdx rest with
    | none => some (0, d)
    | some (i, b) =>
      if b.last_connected.getD 0 > d.last_connected.getD 0 then some (i + 1, b)
      else some (0, d)

/-- Index of the registry entry with the given id (`device_id in
self.paired_devices` followed by `self.paired_devices[device_id]`:
dict keys are the device ids). -/
def findDevIdx : List Device → String → Option Nat
  | [], _ => none
  | d :: rest, i =>
    if d.id = i then some 0 else (findDevIdx rest i).map (fun j => j + 1)

/-- Device selection of `connect` (lines 107-114): a truthy `device_id` must
be a registry key, otherwise fall back to the most recently connected device
when the registry is nonempty. -/
def connectIdx (device_id : Option String) (s : BTState) : Option Nat :=
  if strTruthy device_id = true then
    findDevIdx s.paired_devices (device_id.getD "")
  else if s.paired_devices ≠ [] then
    (bestIdx s.paired_devices).map (fun p => p.1)
  else none

/-- `BluetoothService.connect` (src/services/bluetooth.py lines 97-119). -/
def connect (device_id : Option String) (now : Int) (s : BTState) :
    Bool × BTState :=
  match connectIdx device_id s with
  | none => (false, s)
  | some i =>
    match s.paired_devices.get? i with
    | none => (false, s)
    | some d =>
      (true,
        { s with
          connected := true
          active_device := some i
          paired_devices :=
            s.paired_devices.set i { d with last_connected := some now } })

/-- `BluetoothService.disconnect` (lines 121-136). -/
def disconnect (s : BTState) : Bool × BTState :=
  if s.connected = false then (false, s)
  else (true, { s with connected := false, active_device := none })

/-- Contact lookup of `make_call`: first contact whose `id` matches. -/
def resolveContact (contacts : List Contact) (cid : String) : Option Contact :=
  contacts.find? (fun c => c.id = cid)

/-- Contact resolution of `make_call` (lines 173-179): a truthy `contact_id`
matching a contact overrides `number` and supplies the name; otherwise the
`number` argument is used as passed and the name stays `None`. -/
def resolveNumberName (contacts : List Contact) (number contact_id : Option String) :
    Option String × Option String :=
  if strTruthy contact_id = true then
    match resolveContact contacts (contact_id.getD "") with
    | some c => (some c.number, some c.name)
    | none => (number, none)
  else (number, none)

/-- `BluetoothService.make_call` (lines 156-192).  The 2-second
auto-connect timer it starts is the separate operation `connect_call`. -/
def make_call (number contact_id : Option String) (now : Int) (s : BTState) :
    Bool × BTState :=
  if s.connected = false ∨ s.call_status ≠ CallStatus.IDLE then (false, s)
  else
    (true,
      { s with
        call_status := CallStatus.OUTGOING
        current_call := some
          { number := (resolveNumberName s.contacts number contact_id).1
            name := (resolveNumberName s.contacts number contact_id).2
            start_time := now
            duration := 0 } })

/-- `BluetoothService._connect_call` (lines 194-198): the auto-connect timer
callback.  Total as in the source: its body is a guarded assignment. -/
def connect_call (s : BTState) : BTState :=
  if s.call_status = CallStatus.OUTGOING then
    { s with call_status := CallStatus.ACTIVE }
  else s

/-- `BluetoothService.answer_call` (lines 200-214). -/
def answer_call (now : Int) (s : BTState) : Bool × BTState :=
  if s.connected = false ∨ s.call_status ≠ CallStatus.INCOMING ∨
      s.current_call = none then (false, s)
  else
    match s.current_call with
    | none => (false, s)
    | some cc =>
      (true,
        { s with
          call_status := CallStatus.ACTIVE
          current_call := some { cc with start_time := now } })

/-- History truncation of lines 250-251 and 315-316:
`if len(h) > 50: h = h[:50]`. -/
def truncHist (h : List CallRecord) : List CallRecord :=
  if h.length > 50 then h.take 50 else h

/-- The history entry `end_call` builds from the payload (lines 234-246):
`end_time = now`; duration recomputed only when the call was `ACTIVE`;
type `"missed"` for a still-`INCOMING` call, `"outgoing"` for a
still-`OUTGOING` one, `"incoming"` otherwise (i.e. for `ACTIVE`). -/
def endRecord (status : CallStatus) (now : Int) (cc : CurrentCall) : CallRecord :=
  { number := cc.number
    name := cc.name
    start_time := cc.start_time
    end_time := now
    duration :=
      if status = CallStatus.ACTIVE then now - cc.start_time else cc.duration
    type :=
      if status = CallStatus.INCOMING then "missed"
      else if status = CallStatus.OUTGOING then "outgoing"
      else "incoming" }

/-- `BluetoothService.end_call` (lines 216-256). -/
def end_call (now : Int) (s : BTState) : Bool × BTState :=
  if s.connected = false ∨
      (s.call_status ≠ CallStatus.ACTIVE ∧
       s.call_status ≠ CallStatus.OUTGOING ∧
       s.call_status ≠ CallStatus.INCOMING) then (false, s)
  else
    match s.current_call with
    | some cc =>
      (true,
        { s with
          call_status := CallStatus.IDLE
          current_call := none
          call_history :=
            truncHist (endRecord s.call_status now cc :: s.call_history) })
    | none =>
      (true, { s with call_status := CallStatus.IDLE, current_call := none })

/-- `BluetoothService._simulate_incoming_call` (lines 278-297): picks a
contact (`random.choice` modelled by the index `k`, taken mod the list
length), no-op when the contact list is empty.  The 15-second auto-miss
timer it starts is the separate operation `auto_miss_call`. -/
def simulate_incoming_call (k : Nat) (now : Int) (s : BTState) : BTState :=
  match s.contacts with
  | [] => s
  | c0 :: rest =>
    let c := (c0 :: rest).getD (k % (c0 :: rest).length) c0
    { s with
      call_status := CallStatus.INCOMING
      current_call := some
        { number := some c.number
          name := some c.name
          start_time := now
          duration := 0 } }

/-- `BluetoothService._auto_miss_call` (lines 299-320): the auto-miss timer
callback.  The transient `MISSED` status of line 302 is overwritten by `IDLE`
at line 320 before the callback returns, so the resulting state holds `IDLE`.
Total as in the source: every statement of its body is non-raising. -/
def auto_miss_call (now : Int) (s : BTState) : BTState :=
  if s.call_status = CallStatus.INCOMING then
    match s.current_call with
    | some cc =>
      let r : CallRecord :=
        { number := cc.number
          name := cc.name
          start_time := cc.start_time
          end_time := now
          duration := cc.duration
          type := "missed" }
      { s with
        call_status := CallStatus.IDLE
        current_call := none
        call_history := truncHist (r :: s.call_history) }
    | none =>
      { s with call_status := CallStatus.IDLE, current_call := none }
  else s

/-- The battery/signal drift of `_bluetooth_thread` (lines 266-274), one tick.
`randBat`/`randSig` are the two Bernoulli draws, `dplus` the
`random.choice([-1, 1])` outcome.  The returned `Bool` of `driftTick` is
`true` when the Python code raises `KeyError` (the active device dict has no
`"signal"` key at line 274); the battery update of line 269, executed first,
persists in the returned state either way, as it does on the live object. -/
def batteryStep (randBat : Bool) (d : Device) : Device :=
  if randBat then { d with battery := max 0 (d.battery - 1) } else d

/-- The signal fluctuation of lines 273-274:
`max(0, min(5, signal + random.choice([-1, 1])))`. -/
def signalStep (dplus : Bool) (sg : Int) : Int :=
  max 0 (min 5 (sg + (if dplus then 1 else -1)))

/-- One drift tick, combining `batteryStep` (line 269, executed first) with
the signal fluctuation of lines 272-274. -/
def driftTick (randBat randSig dplus : Bool) (s : BTState) : Bool × BTState :=
  if s.connected = true then
    match s.active_device with
    | none => (false, s)
    | some i =>
      match s.paired_devices.get? i with
      | none => (false, s)
      | some d =>
        if randSig then
          match (batteryStep randBat d).signal with
          | some sg =>
            (false,
              { s with paired_devices :=
                  s.paired_devices.set i { batteryStep randBat d with signal := some (signalStep dplus sg) } })
          | none =>
            (true,
              { s with paired_devices :=
                  s.paired_devices.set i (batteryStep randBat d) })
        else
          (false,
            { s with paired_devices :=
                s.paired_devices.set i (batteryStep randBat d) })
  else (false, s)

/-- One mutating operation on the service: the five externally invocable
commands, the two timer callbacks, and the two background-thread actions
(incoming-call injection and device drift), each with the nondeterministic
inputs (timestamps, random draws) it consumes. -/
inductive Op where
  | connectOp (device_id : Option String) (now : Int)
  | disconnectOp
  | makeCallOp (number contact_id : Option String) (now : Int)
  | answerCallOp (now : Int)
  | endCallOp (now : Int)
  | connectCallOp
  | autoMissOp (now : Int)
  | incomingOp (k : Nat) (now : Int)
  | driftOp (randBat randSig dplus : Bool)

/-- State effect of one operation.  `incomingOp` carries the guard of line
262 under which the background thread invokes `_simulate_incoming_call`
(connected and idle). -/
def step : Op → BTState → BTState
  | Op.connectOp d n, s => (connect d n s).2
  | Op.disconnectOp, s => (disconnect s).2
  | Op.makeCallOp num cid n, s => (make_call num cid n s).2
  | Op.answerCallOp n, s => (answer_call n s).2
  | Op.endCallOp n, s => (end_call n s).2
  | Op.connectCallOp, s => connect_call s
  | Op.autoMissOp n, s => auto_miss_call n s
  | Op.incomingOp k n, s =>
    if s.connected = true ∧ s.call_status = CallStatus.IDLE then
      simulate_incoming_call k n s
    else s
  | Op.driftOp rb rs dp, s => (driftTick rb rs dp s).2

/-- `BluetoothService._load_sample_data` (lines 322-386), with `t0` standing
for `time.time()` at load time. -/
def loadSampleData (t0 : Int) : BTState :=
  { connected := false
    paired_devices :=
      [ { id := "device1", name := "Pixel 7 Pro", type := BluetoothDeviceType.PHONE
          battery := 85, signal := some 4, last_connected := some t0 }
      , { id := "device2", name := "Sony WH-1000XM4", type := BluetoothDeviceType.AUDIO
          battery := 60, signal := none, last_connected := some (t0 - 86400) }
      , { id := "device3", name := "iPhone 14", type := BluetoothDeviceType.PHONE
          battery := 75, signal := some 3, last_connected := some (t0 - 172800) } ]
    active_device := none
    call_status := CallStatus.IDLE
    current_call := none
    call_history :=
      [ { number := some "+1 (555) 123-4567", name := some "John Smith"
          start_time := t0 - 3600, end_time := t0 - 3500, duration := 100
          type := "outgoing" }
      , { number := some "+1 (555) 987-6543", name := some "Jane Doe"
          start_time := t0 - 7200, end_time := t0 - 7170, duration := 30
          type := "incoming" }
      , { number := some "+1 (555) 333-2222", name := some "Unknown"
          start_time := t0 - 43200, end_time := t0 - 43200, duration := 0
          type := "missed" } ]
    contacts :=
      [ { id := "contact1", name := "John Smith", number := "+1 (555) 123-4567" }
      , { id := "contact2", name := "Jane Doe", number := "+1 (555) 987-6543" }
      , { id := "contact3", name := "Alice Johnson", number := "+1 (555) 555-5555" }
      , { id := "contact4", name := "Bob Williams", number := "+1 (555) 444-3333" }
      , { id := "contact5", name := "Chris Taylor", number := "+1 (555) 222-1111" } ] }

example : (connect (some "device2") 7 (loadSampleData 0)).1 = true := by decide
example : (connect (some "nope") 7 (loadSampleData 0)).1 = false := by decide
example : (connect (some "") 7 (loadSampleData 0)).1 = true := by decide
example :
    (activeDev (connect none 7 (loadSampleData 0)).2).map (fun d => d.id) =
      some "device1" := by decide
example :
    (driftTick false true true (connect (some "device2") 1 (loadSampleData 0)).2).1 =
      true := by decide

/-! ### Helper lemmas -/

lemma connect_fields (d : Option String) (n : Int) (s : BTState) :
    (connect d n s).2.call_status = s.call_status ∧
    (connect d n s).2.current_call = s.current_call ∧
    (connect d n s).2.call_history = s.call_history := by
  unfold connect
  split
  · exact ⟨rfl, rfl, rfl⟩
  · split
    · exact ⟨rfl, rfl, rfl⟩
    · exact ⟨rfl, rfl, rfl⟩

lemma disconnect_fields (s : BTState) :
    (disconnect s).2.call_status = s.call_status ∧
    (disconnect s).2.current_call = s.current_call ∧
    (disconnect s).2.call_history = s.call_history := by
  unfold disconnect
  split
  · exact ⟨rfl, rfl, rfl⟩
  · exact ⟨rfl, rfl, rfl⟩

lemma make_call_fields (num cid : Option String) (n : Int) (s : BTState) :
    (make_call num cid n s).2.connected = s.connected ∧
    (make_call num cid n s).2.active_device = s.active_device ∧
    (make_call num cid n s).2.call_history = s.call_history := by
  unfold make_call
  split
  · exact ⟨rfl, rfl, rfl⟩
  · exact ⟨rfl, rfl, rfl⟩

lemma answer_call_fields (n : Int) (s : BTState) :
    (answer_call n s).2.connected = s.connected ∧
    (answer_call n s).2.active_device = s.active_device ∧
    (answer_call n s).2.call_history = s.call_history := by
  unfold answer_call
  split
  · exact ⟨rfl, rfl, rfl⟩
  · split
    · exact ⟨rfl, rfl, rfl⟩
    · exact ⟨rfl, rfl, rfl⟩

lemma end_call_fields (n : Int) (s : BTState) :
    (end_call n s).2.connected = s.connected ∧
    (end_call n s).2.active_device = s.active_device := by
  unfold end_call
  split
  · exact ⟨rfl, rfl⟩
  · split
    · exact ⟨rfl, rfl⟩
    · exact ⟨rfl, rfl⟩

lemma connect_call_fields (s : BTState) :
    (connect_call s).connected = s.connected ∧
    (connect_call s).active_device = s.active_device ∧
    (connect_call s).current_call = s.current_call ∧
    (connect_call s).call_history = s.call_history := by
  unfold connect_call
  split
  · exact ⟨rfl, rfl, rfl, rfl⟩
  · exact ⟨rfl, rfl, rfl, rfl⟩

lemma auto_miss_fields (n : Int) (s : BTState) :
    (auto_miss_call n s).connected = s.connected ∧
    (auto_miss_call n s).active_device = s.active_device := by
  unfold auto_miss_call
  split
  · split
    · exact ⟨rfl, rfl⟩
    · exact ⟨rfl, rfl⟩
  · exact ⟨rfl, rfl⟩

lemma sim_incoming_fields (k : Nat) (n : Int) (s : BTState) :
    (simulate_incoming_call k n s).connected = s.connected ∧
    (simulate_incoming_call k n s).active_device = s.active_device ∧
    (simulate_incoming_call k n s).call_history = s.call_history := by
  unfold simulate_incoming_call
  split
  · exact ⟨rfl, rfl, rfl⟩
  · exact ⟨rfl, rfl, rfl⟩

lemma driftTick_fields (rb rs dp : Bool) (s : BTState) :
    (driftTick rb rs dp s).2.connected = s.connected ∧
    (driftTick rb rs dp s).2.active_device = s.active_device ∧
    (driftTick rb rs dp s).2.call_status = s.call_status ∧
    (driftTick rb rs dp s).2.current_call = s.current_call ∧
    (driftTick rb rs dp s).2.call_history = s.call_history := by
  unfold driftTick
  repeat first
  | exact ⟨rfl, rfl, rfl, rfl, rfl⟩
  | split

lemma truncHist_cons_take (r : CallRecord) (h : List CallRecord) :
    truncHist (r :: h) = (r :: h).take 50 := by
  unfold truncHist
  split
  · rfl
  · next hle =>
    exact (List.take_of_length_le (by omega)).symm

lemma truncHist_cons_length (r : CallRecord) (h : List CallRecord)
    (hle : h.length ≤ 50) : (truncHist (r :: h)).length ≤ 50 := by
  rw [truncHist_cons_take, List.length_take]
  simp only [List.length_cons]
  omega

/-- The payload-duration invariant: every in-flight call payload carries
`duration = 0` (its creation value; only `end_call` ever recomputes a
duration, and it clears the payload in the same step). -/
def payloadDurZero (s : BTState) : Prop :=
  ∀ cc, s.current_call = some cc → cc.duration = 0

lemma payloadDurZero_step (op : Op) (s : BTState) (h : payloadDurZero s) :
    payloadDurZero (step op s) := by
  cases op with
  | connectOp d n =>
    intro cc hcc
    exact h cc ((connect_fields d n s).2.1 ▸ hcc)
  | disconnectOp =>
    intro cc hcc
    exact h cc ((disconnect_fields s).2.1 ▸ hcc)
  | makeCallOp num cid n =>
    simp only [step, payloadDurZero]
    unfold make_call
    split
    · exact h
    · intro cc hcc
      simp only [Option.some.injEq] at hcc
      rw [← hcc]
  | answerCallOp n =>
    simp only [step, payloadDurZero]
    unfold answer_call
    split
    · exact h
    · split
      · exact h
      · next cc0 heq =>
        intro cc hcc
        simp only [Option.some.injEq] at hcc
        rw [← hcc]
        exact h cc0 heq
  | endCallOp n =>
    simp only [step, payloadDurZero]
    unfold end_call
    split
    · exact h
    · split
      · intro cc hcc
        simp at hcc
      · intro cc hcc
        simp at hcc
  | connectCallOp =>
    intro cc hcc
    exact h cc ((connect_call_fields s).2.2.1 ▸ hcc)
  | autoMissOp n =>
    simp only [step, payloadDurZero]
    unfold auto_miss_call
    split
    · split
      · intro cc hcc
        simp at hcc
      · intro cc hcc
        simp at hcc
    · exact h
  | incomingOp k n =>
    simp only [step, payloadDurZero]
    split
    · unfold simulate_incoming_call
      split
      · exact h
      · intro cc hcc
        simp only [Option.some.injEq] at hcc
        rw [← hcc]
    · exact h
  | driftOp rb rs dp =>
    intro cc hcc
    exact h cc ((driftTick_fields rb rs dp s).2.2.2.1 ▸ hcc)

lemma findDevIdx_spec (ds : List Device) (i : String) :
    ∀ j, findDevIdx ds i = some j →
      ∃ d, ds.get? j = some d ∧ d.id = i := by
  induction ds with
  | nil =>
    intro j hj
    simp [findDevIdx] at hj
  | cons a rest ih =>
    intro j hj
    unfold findDevIdx at hj
    split at hj
    · next hid =>
      simp only [Option.some.injEq] at hj
      exact ⟨a, by rw [← hj]; rfl, hid⟩
    · simp only [Option.map_eq_some'] at hj
      obtain ⟨j0, hj0, hjeq⟩ := hj
      obtain ⟨d, hget, hdid⟩ := ih j0 hj0
      exact ⟨d, by rw [← hjeq]; exact hget, hdid⟩

lemma bestIdx_cons_none (a : Device) (rest : List Device)
    (hb : bestIdx rest = none) : bestIdx (a :: rest) = some (0, a) := by
  unfold bestIdx
  rw [hb]

lemma bestIdx_cons_eq (a : Device) (rest : List Device) (j : Nat) (b : Device)
    (hb : bestIdx rest = some (j, b)) :
    bestIdx (a :: rest) =
      if b.last_connected.getD 0 > a.last_connected.getD 0 then some (j + 1, b)
      else some (0, a) := by
  unfold bestIdx
  rw [hb]

lemma bestIdx_cons_ne_none (a : Device) (rest : List Device) :
    bestIdx (a :: rest) ≠ none := by
  cases hb : bestIdx rest with
  | none =>
    rw [bestIdx_cons_none a rest hb]
    simp
  | some p =>
    obtain ⟨j, b⟩ := p
    rw [bestIdx_cons_eq a rest j b hb]
    split <;> simp

lemma bestIdx_spec (ds : List Device) :
    ∀ i d, bestIdx ds = some (i, d) →
      ds.get? i = some d ∧
        ∀ d2 ∈ ds, d2.last_connected.getD 0 ≤ d.last_connected.getD 0 := by
  induction ds with
  | nil =>
    intro i d hid
    simp [bestIdx] at hid
  | cons a rest ih =>
    intro i d hid
    cases hb : bestIdx rest with
    | none =>
      rw [bestIdx_cons_none a rest hb] at hid
      simp only [Option.some.injEq, Prod.mk.injEq] at hid
      obtain ⟨hi, hd⟩ := hid
      subst hi
      subst hd
      cases rest with
      | nil =>
        refine ⟨rfl, ?_⟩
        intro d2 hd2
        simp only [List.mem_singleton] at hd2
        subst hd2
        exact le_refl _
      | cons b r2 => exact absurd hb (bestIdx_cons_ne_none b r2)
    | some p =>
      obtain ⟨j, b⟩ := p
      rw [bestIdx_cons_eq a rest j b hb] at hid
      obtain ⟨hget, hmax⟩ := ih j b hb
      split at hid
      · next hgt =>
        simp only [Option.some.injEq, Prod.mk.injEq] at hid
        obtain ⟨hi, hd⟩ := hid
        subst hi
        subst hd
        refine ⟨hget, ?_⟩
        intro d2 hd2
        rcases List.mem_cons.mp hd2 with h2 | h2
        · subst h2
          exact le_of_lt hgt
        · exact hmax d2 h2
      · next hle =>
        simp only [Option.some.injEq, Prod.mk.injEq] at hid
        obtain ⟨hi, hd⟩ := hid
        subst hi
        subst hd
        push_neg at hle
        refine ⟨rfl, ?_⟩
        intro d2 hd2
        rcases List.mem_cons.mp hd2 with h2 | h2
        · subst h2
          exact le_refl _
        · exact le_trans (hmax d2 h2) hle

lemma bestIdx_of_ne_nil (ds : List Device) (h : ds ≠ []) :
    ∃ p, bestIdx ds = some p := by
  cases ds with
  | nil => exact absurd rfl h
  | cons a rest =>
    cases hb : bestIdx (a :: rest) with
    | some p => exact ⟨p, rfl⟩
    | none => exact absurd hb (bestIdx_cons_ne_none a rest)

/-! ### Claim theorems -/

/-- C2: the two timer callbacks re-validate state before acting: the
auto-connect callback transitions `OUTGOING` to `ACTIVE` and is a no-op on
every other status; the auto-miss callback mutates state only when the status
is still `INCOMING`, and is a no-op on every other status.  Both are total
Lean functions, mirroring that the Python bodies contain no raising
statement beyond their state guard. -/
theorem timer_callbacks_guarded (s : BTState) (now : Int) :
    (s.call_status = CallStatus.OUTGOING →
      connect_call s = { s with call_status := CallStatus.ACTIVE }) ∧
    (s.call_status ≠ CallStatus.OUTGOING → connect_call s = s) ∧
    (s.call_status ≠ CallStatus.INCOMING → auto_miss_call now s = s) := by
  refine ⟨fun h => ?_, fun h => ?_, fun h => ?_⟩
  · unfold connect_call
    rw [if_pos h]
  · unfold connect_call
    rw [if_neg h]
  · unfold auto_miss_call
    rw [if_neg h]

/-- Witness for C2 at the sample state (status `IDLE`): both callbacks
leave it unchanged. -/
theorem timer_callbacks_guarded_witness :
    connect_call (loadSampleData 0) = loadSampleData 0 ∧
    auto_miss_call 9 (loadSampleData 0) = loadSampleData 0 :=
  ⟨(timer_callbacks_guarded (loadSampleData 0) 9).2.1 (by decide),
   (timer_callbacks_guarded (loadSampleData 0) 9).2.2 (by decide)⟩

/-- The CallSession invariant of the spec: `status == Idle ⇔ no active call
payload`. -/
def callInv (s : BTState) : Prop :=
  s.call_status = CallStatus.IDLE ↔ s.current_call = none

/-- C8: every operation of the service preserves
`status = IDLE ↔ current_call = none`. -/
theorem call_payload_invariant (op : Op) (s : BTState) (h : callInv s) :
    callInv (step op s) := by
  cases op with
  | connectOp d n =>
    obtain ⟨h1, h2, _⟩ := connect_fields d n s
    unfold callInv at *
    rw [step, h1, h2]
    exact h
  | disconnectOp =>
    obtain ⟨h1, h2, _⟩ := disconnect_fields s
    unfold callInv at *
    rw [step, h1, h2]
    exact h
  | makeCallOp num cid n =>
    unfold callInv at *
    rw [step]
    unfold make_call
    split
    · exact h
    · simp
  | answerCallOp n =>
    unfold callInv at *
    rw [step]
    unfold answer_call
    split
    · exact h
    · split
      · exact h
      · simp
  | endCallOp n =>
    unfold callInv at *
    rw [step]
    unfold end_call
    split
    · exact h
    · split
      · simp
      · simp
  | connectCallOp =>
    unfold callInv at *
    rw [step]
    unfold connect_call
    by_cases hs : s.call_status = CallStatus.OUTGOING
    · rw [if_pos hs]
      constructor
      · intro hh
        simp at hh
      · intro hc
        have hi := h.mpr hc
        rw [hs] at hi
        exact absurd hi (by decide)
    · rw [if_neg hs]
      exact h
  | autoMissOp n =>
    unfold callInv at *
    rw [step]
    unfold auto_miss_call
    split
    · split
      · simp
      · simp
    · exact h
  | incomingOp k n =>
    unfold callInv at *
    rw [step]
    split
    · unfold simulate_incoming_call
      split
      · exact h
      · simp
    · exact h
  | driftOp rb rs dp =>
    obtain ⟨_, _, h3, h4, _⟩ := driftTick_fields rb rs dp s
    unfold callInv at *
    rw [step, h3, h4]
    exact h

/-- Witness for C8: the invariant holds at the sample state and is kept by a
`make_call` step. -/
theorem call_payload_invariant_witness :
    callInv (step (Op.makeCallOp (some "+15551234567") none 3) (loadSampleData 0)) :=
  call_payload_invariant (Op.makeCallOp (some "+15551234567") none 3)
    (loadSampleData 0) (by unfold callInv; decide)

/-- The ConnectionState invariant of the spec: `connected` implies a non-null
active device. -/
def connInv (s : BTState) : Prop :=
  s.connected = true → s.active_device.isSome = true

/-- C9: every operation of the service preserves
`connected = true → active_device is set`. -/
theorem connected_device_invariant (op : Op) (s : BTState) (h : connInv s) :
    connInv (step op s) := by
  cases op with
  | connectOp d n =>
    unfold connInv at *
    rw [step]
    unfold connect
    split
    · exact h
    · split
      · exact h
      · intro
        rfl
  | disconnectOp =>
    unfold connInv at *
    rw [step]
    unfold disconnect
    split
    · exact h
    · intro hc
      simp at hc
  | makeCallOp num cid n =>
    obtain ⟨h1, h2, _⟩ := make_call_fields num cid n s
    unfold connInv at *
    rw [step, h1, h2]
    exact h
  | answerCallOp n =>
    obtain ⟨h1, h2, _⟩ := answer_call_fields n s
    unfold connInv at *
    rw [step, h1, h2]
    exact h
  | endCallOp n =>
    obtain ⟨h1, h2⟩ := end_call_fields n s
    unfold connInv at *
    rw [step, h1, h2]
    exact h
  | connectCallOp =>
    obtain ⟨h1, h2, _⟩ := connect_call_fields s
    unfold connInv at *
    rw [step, h1, h2]
    exact h
  | autoMissOp n =>
    obtain ⟨h1, h2⟩ := auto_miss_fields n s
    unfold connInv at *
    rw [step, h1, h2]
    exact h
  | incomingOp k n =>
    unfold connInv at *
    rw [step]
    split
    · obtain ⟨h1, h2, _⟩ := sim_incoming_fields k n s
      rw [h1, h2]
      exact h
    · exact h
  | driftOp rb rs dp =>
    obtain ⟨h1, h2, _⟩ := driftTick_fields rb rs dp s
    unfold connInv at *
    rw [step, h1, h2]
    exact h

/-- Witness for C9: the invariant holds at the sample state and is kept by a
parameterless `connect` step. -/
theorem connected_device_invariant_witness :
    connInv (step (Op.connectOp none 4) (loadSampleData 0)) :=
  connected_device_invariant (Op.connectOp none 4) (loadSampleData 0)
    (by unfold connInv; decide)

/-- C1: `end_call` succeeds exactly when connected with status `ACTIVE`,
`OUTGOING` or `INCOMING` (so it fails when `IDLE` or not connected); on
success with a payload it prepends the completed record to the history,
sets `IDLE` and clears the payload; the record carries
`duration = now - start_time` when ended while `ACTIVE`, outcome `"missed"`
when ended while still `INCOMING`, and duration 0 with outcome `"outgoing"`
when ended while still `OUTGOING` (every reachable payload has duration 0:
conjuncts four and five show the payload-duration invariant is established
by the initial state and preserved by every operation). -/
theorem end_call_spec (s : BTState) (now : Int) :
    ((end_call now s).1 = true ↔
      s.connected = true ∧
        (s.call_status = CallStatus.ACTIVE ∨ s.call_status = CallStatus.OUTGOING ∨
          s.call_status = CallStatus.INCOMING)) ∧
    (∀ cc, s.current_call = some cc → (end_call now s).1 = true →
      (end_call now s).2.call_status = CallStatus.IDLE ∧
      (end_call now s).2.current_call = none ∧
      (end_call now s).2.call_history =
        (endRecord s.call_status now cc :: s.call_history).take 50 ∧
      (s.call_status = CallStatus.ACTIVE →
        (endRecord s.call_status now cc).duration = now - cc.start_time) ∧
      (s.call_status = CallStatus.INCOMING →
        (endRecord s.call_status now cc).type = "missed") ∧
      (s.call_status = CallStatus.OUTGOING → payloadDurZero s →
        (endRecord s.call_status now cc).duration = 0 ∧
        (endRecord s.call_status now cc).type = "outgoing")) ∧
    (∀ (op : Op) (s1 : BTState), payloadDurZero s1 → payloadDurZero (step op s1)) ∧
    (∀ t0 : Int, payloadDurZero (loadSampleData t0)) := by
  refine ⟨?_, ?_, payloadDurZero_step, ?_⟩
  · unfold end_call
    by_cases hG : (s.connected = false ∨
        (s.call_status ≠ CallStatus.ACTIVE ∧ s.call_status ≠ CallStatus.OUTGOING ∧
         s.call_status ≠ CallStatus.INCOMING))
    · rw [if_pos hG]
      constructor
      · intro hf
        simp at hf
      · rintro ⟨hc, hd⟩
        rcases hG with h | ⟨h1, h2, h3⟩
        · rw [hc] at h
          simp at h
        · rcases hd with h | h | h
          · exact absurd h h1
          · exact absurd h h2
          · exact absurd h h3
    · rw [if_neg hG]
      have hc : s.connected = true := by
        cases hcs : s.connected with
        | false => exact absurd (Or.inl hcs) hG
        | true => rfl
      constructor
      · intro _
        refine ⟨hc, ?_⟩
        by_cases hA : s.call_status = CallStatus.ACTIVE
        · exact Or.inl hA
        by_cases hO : s.call_status = CallStatus.OUTGOING
        · exact Or.inr (Or.inl hO)
        by_cases hI : s.call_status = CallStatus.INCOMING
        · exact Or.inr (Or.inr hI)
        exact absurd (Or.inr ⟨hA, hO, hI⟩) hG
      · intro _
        split
        · rfl
        · rfl
  · intro cc hcc hsucc
    by_cases hG : (s.connected = false ∨
        (s.call_status ≠ CallStatus.ACTIVE ∧ s.call_status ≠ CallStatus.OUTGOING ∧
         s.call_status ≠ CallStatus.INCOMING))
    · unfold end_call at hsucc
      rw [if_pos hG] at hsucc
      simp at hsucc
    · have heq : end_call now s = (true,
          { s with
            call_status := CallStatus.IDLE
            current_call := none
            call_history :=
              truncHist (endRecord s.call_status now cc :: s.call_history) }) := by
        unfold end_call
        rw [if_neg hG, hcc]
      rw [heq]
      refine ⟨rfl, rfl, truncHist_cons_take _ _, ?_, ?_, ?_⟩
      · intro hA
        simp [endRecord, hA]
      · intro hI
        simp [endRecord, hI]
      · intro hO hpz
        have hdz := hpz cc hcc
        constructor
        · simp [endRecord, hO, hdz]
        · simp [endRecord, hO]
  · intro t0 cc hcc
    simp [loadSampleData] at hcc

/-- The `ACTIVE` call state reached by connecting the sample phone, dialling
a number at time 10 and letting the auto-connect timer fire. -/
def activeCallState : BTState :=
  connect_call
    (make_call (some "+15551234567") none 10
      (connect (some "device1") 1 (loadSampleData 0)).2).2

/-- Witness for C1: ending the active sample call yields `IDLE`. -/
theorem end_call_spec_witness :
    (end_call 30 activeCallState).2.call_status = CallStatus.IDLE :=
  ((end_call_spec activeCallState 30).2.1
    { number := some "+15551234567", name := none, start_time := 10, duration := 0 }
    (by decide) (by decide)).1

/-- C3: when the auto-miss callback fires while the session is still
`INCOMING` (with its payload, which always carries duration 0), the session
goes to `IDLE` with the payload cleared and exactly one record with outcome
`"missed"` and duration 0 is prepended to the history. -/
theorem auto_miss_spec (s : BTState) (cc : CurrentCall) (now : Int)
    (hst : s.call_status = CallStatus.INCOMING)
    (hcc : s.current_call = some cc) (hdz : cc.duration = 0) :
    (auto_miss_call now s).call_status = CallStatus.IDLE ∧
    (auto_miss_call now s).current_call = none ∧
    ∃ r, (auto_miss_call now s).call_history = (r :: s.call_history).take 50 ∧
      r.type = "missed" ∧ r.duration = 0 ∧
      (auto_miss_call now s).call_history.length =
        min (s.call_history.length + 1) 50 := by
  have heq : auto_miss_call now s =
      { s with
        call_status := CallStatus.IDLE
        current_call := none
        call_history :=
          truncHist
            ({ number := cc.number, name := cc.name, start_time := cc.start_time,
               end_time := now, duration := cc.duration,
               type := "missed" } :: s.call_history) } := by
    unfold auto_miss_call
    rw [if_pos hst, hcc]
  rw [heq]
  refine ⟨rfl, rfl, _, truncHist_cons_take _ _, rfl, hdz, ?_⟩
  rw [truncHist_cons_take]
  simp only [List.length_take, List.length_cons]
  omega

/-- The `INCOMING` call state the background thread injects at the sample
state once connected. -/
def incomingCallState : BTState :=
  step (Op.incomingOp 0 20) (connect (some "device1") 1 (loadSampleData 0)).2

/-- Witness for C3: auto-missing the injected sample call yields `IDLE`. -/
theorem auto_miss_spec_witness :
    (auto_miss_call 35 incomingCallState).call_status = CallStatus.IDLE :=
  (auto_miss_spec incomingCallState
    { number := some "+1 (555) 123-4567", name := some "John Smith",
      start_time := 20, duration := 0 }
    35 (by decide) (by decide) (by decide)).1

/-- C4: `make_call` fails, with the state left unchanged, exactly when the
service is not connected or the status is not `IDLE`; otherwise it succeeds,
sets `OUTGOING` and creates a payload with `start_time = now` (and duration
0), resolving a nonempty `contact_id` that matches a contact to that
contact's number and name. -/
theorem make_call_spec (s : BTState) (number contact_id : Option String)
    (now : Int) :
    ((make_call number contact_id now s).1 = false ↔
      ¬(s.connected = true ∧ s.call_status = CallStatus.IDLE)) ∧
    ((make_call number contact_id now s).1 = false →
      (make_call number contact_id now s).2 = s) ∧
    (s.connected = true → s.call_status = CallStatus.IDLE →
      (make_call number contact_id now s).1 = true ∧
      (make_call number contact_id now s).2.call_status = CallStatus.OUTGOING ∧
      ∃ p, (make_call number contact_id now s).2.current_call = some p ∧
        p.start_time = now ∧ p.duration = 0 ∧
        ∀ cid c, contact_id = some cid → cid ≠ "" →
          resolveContact s.contacts cid = some c →
          p.number = some c.number ∧ p.name = some c.name) := by
  refine ⟨?_, ?_, ?_⟩
  · unfold make_call
    by_cases hG : (s.connected = false ∨ s.call_status ≠ CallStatus.IDLE)
    · rw [if_pos hG]
      constructor
      · intro _
        rintro ⟨hc, hi⟩
        rcases hG with h | h
        · rw [hc] at h
          simp at h
        · exact h hi
      · intro _
        rfl
    · rw [if_neg hG]
      push_neg at hG
      obtain ⟨hc, hi⟩ := hG
      constructor
      · intro hf
        simp at hf
      · intro hn
        exfalso
        refine hn ⟨?_, hi⟩
        cases hcs : s.connected with
        | false => exact absurd hcs hc
        | true => rfl
  · unfold make_call
    split
    · intro _
      rfl
    · intro hf
      simp at hf
  · intro hc hi
    have hG : ¬(s.connected = false ∨ s.call_status ≠ CallStatus.IDLE) := by
      rw [hc, hi]
      simp
    have heq : make_call number contact_id now s = (true,
        { s with
          call_status := CallStatus.OUTGOING
          current_call := some
            { number := (resolveNumberName s.contacts number contact_id).1
              name := (resolveNumberName s.contacts number contact_id).2
              start_time := now
              duration := 0 } }) := by
      unfold make_call
      rw [if_neg hG]
    rw [heq]
    refine ⟨rfl, rfl, _, rfl, rfl, rfl, ?_⟩
    intro cid c hcid hne hres
    subst hcid
    have ht : strTruthy (some cid) = true := by
      simp [strTruthy, hne]
    simp [resolveNumberName, ht, hres]

/-- Witness for C4: dialling contact1 from the connected sample state
succeeds with status `OUTGOING`. -/
theorem make_call_spec_witness :
    (make_call none (some "contact1") 10
      (connect (some "device1") 1 (loadSampleData 0)).2).2.call_status =
      CallStatus.OUTGOING :=
  ((make_call_spec (connect (some "device1") 1 (loadSampleData 0)).2
    none (some "contact1") 10).2.2 (by decide) (by decide)).2.1

/-- A size-parameterised history entry used to exercise the retention bound
on 60 concrete records. -/
def mkRec (i : Nat) : CallRecord :=
  { number := none, name := none, start_time := (i : Int), end_time := (i : Int),
    duration := 0, type := "call" }

set_option maxRecDepth 8192 in
/-- C6: recorded calls are prepended (the first retention conjunct shows the
truncation keeps the new record in front); every operation keeps the history
at 50 entries or fewer; recording 60 calls into an empty history leaves
exactly the 50 most recent, most-recent-first. -/
theorem history_retention_spec :
    (∀ (r : CallRecord) (h : List CallRecord),
      truncHist (r :: h) = (r :: h).take 50 ∧
      (truncHist (r :: h)).head? = some r) ∧
    (∀ (op : Op) (s : BTState), s.call_history.length ≤ 50 →
      (step op s).call_history.length ≤ 50) ∧
    ((List.range 60).foldl (fun h i => truncHist (mkRec i :: h)) [] =
      (((List.range 60).drop 10).map mkRec).reverse) := by
  refine ⟨?_, ?_, ?_⟩
  · intro r h
    refine ⟨truncHist_cons_take r h, ?_⟩
    rw [truncHist_cons_take]
    simp
  · intro op s hle
    cases op with
    | connectOp d n =>
      simp only [step]
      rw [(connect_fields d n s).2.2]
      exact hle
    | disconnectOp =>
      simp only [step]
      rw [(disconnect_fields s).2.2]
      exact hle
    | makeCallOp num cid n =>
      simp only [step]
      rw [(make_call_fields num cid n s).2.2]
      exact hle
    | answerCallOp n =>
      simp only [step]
      rw [(answer_call_fields n s).2.2]
      exact hle
    | endCallOp n =>
      simp only [step]
      unfold end_call
      split
      · exact hle
      · split
        · exact truncHist_cons_length _ _ hle
        · exact hle
    | connectCallOp =>
      simp only [step]
      rw [(connect_call_fields s).2.2.2]
      exact hle
    | autoMissOp n =>
      simp only [step]
      unfold auto_miss_call
      split
      · split
        · exact truncHist_cons_length _ _ hle
        · exact hle
      · exact hle
    | incomingOp k n =>
      simp only [step]
      split
      · rw [(sim_incoming_fields k n s).2.2]
        exact hle
      · exact hle
    | driftOp rb rs dp =>
      simp only [step]
      rw [(driftTick_fields rb rs dp s).2.2.2.2]
      exact hle
  · decide

/-- Witness for C6: one step from the sample state keeps the bound. -/
theorem history_retention_spec_witness :
    (step Op.disconnectOp (loadSampleData 0)).call_history.length ≤ 50 :=
  history_retention_spec.2.1 Op.disconnectOp (loadSampleData 0) (by decide)

lemma strTruthy_some_ne (id : String) (h : id ≠ "") :
    strTruthy (some id) = true := by
  simp [strTruthy, h]

lemma strTruthy_some_empty : strTruthy (some "") = false := by
  simp [strTruthy]

lemma connectIdx_truthy (id : String) (h : id ≠ "") (s : BTState) :
    connectIdx (some id) s = findDevIdx s.paired_devices id := by
  unfold connectIdx
  rw [if_pos (strTruthy_some_ne id h)]
  rfl

lemma connectIdx_falsy (did : Option String) (h : strTruthy did = false)
    (s : BTState) :
    connectIdx did s =
      if s.paired_devices ≠ [] then
        (bestIdx s.paired_devices).map (fun p => p.1)
      else none := by
  unfold connectIdx
  rw [h]
  simp

lemma connect_of_idx_none (did : Option String) (now : Int) (s : BTState)
    (hidx : connectIdx did s = none) : connect did now s = (false, s) := by
  unfold connect
  rw [hidx]

lemma connect_of_idx_some (did : Option String) (now : Int) (s : BTState)
    (i : Nat) (d : Device)
    (hidx : connectIdx did s = some i)
    (hget : s.paired_devices.get? i = some d) :
    connect did now s = (true,
      { s with
        connected := true
        active_device := some i
        paired_devices :=
          s.paired_devices.set i { d with last_connected := some now } }) := by
  unfold connect
  rw [hidx]
  show (match s.paired_devices.get? i with
    | none => (false, s)
    | some d2 =>
      (true,
        { s with
          connected := true
          active_device := some i
          paired_devices :=
            s.paired_devices.set i { d2 with last_connected := some now } })) = _
  rw [hget]

/-- C5 counterexample: the empty string is not a registered device id in the
sample registry, yet `connect("")` returns `True` (Python's `if device_id and
...` treats `""` as absent and falls through to the most-recent-device
branch), refuting "connect(device_id) fails whenever device_id is not a
registered device". -/
theorem connect_empty_id_counterexample :
    findDevIdx (loadSampleData 0).paired_devices "" = none ∧
    (connect (some "") 5 (loadSampleData 0)).1 = true ∧
    (connect (some "") 5 (loadSampleData 0)).2.connected = true := by
  decide

/-- C5 (amended): `connect(device_id)` with a nonempty `device_id` fails with
the state unchanged when the id is not registered and otherwise connects to
that device, stamping its `last_connected`; an empty `device_id` behaves
exactly like an absent one; `connect()` with no id fails on an empty registry
and otherwise selects a registered device holding the maximum
`last_connected` (the first such in insertion order). -/
theorem connect_spec (s : BTState) (id : String) (now : Int) :
    (id ≠ "" → findDevIdx s.paired_devices id = none →
      connect (some id) now s = (false, s)) ∧
    (id ≠ "" → ∀ i, findDevIdx s.paired_devices id = some i →
      ∃ d, s.paired_devices.get? i = some d ∧ d.id = id ∧
        (connect (some id) now s).1 = true ∧
        (connect (some id) now s).2.connected = true ∧
        (connect (some id) now s).2.active_device = some i ∧
        (connect (some id) now s).2.paired_devices =
          s.paired_devices.set i { d with last_connected := some now }) ∧
    (connect (some "") now s = connect none now s) ∧
    (s.paired_devices = [] → connect none now s = (false, s)) ∧
    (s.paired_devices ≠ [] →
      ∃ i d, s.paired_devices.get? i = some d ∧
        (∀ d2 ∈ s.paired_devices,
          d2.last_connected.getD 0 ≤ d.last_connected.getD 0) ∧
        (connect none now s).1 = true ∧
        (connect none now s).2.connected = true ∧
        (connect none now s).2.active_device = some i ∧
        (connect none now s).2.paired_devices =
          s.paired_devices.set i { d with last_connected := some now }) := by
  refine ⟨?_, ?_, ?_, ?_, ?_⟩
  · intro hne hfind
    apply connect_of_idx_none
    rw [connectIdx_truthy id hne, hfind]
  · intro hne i hfind
    obtain ⟨d, hget, hdid⟩ := findDevIdx_spec s.paired_devices id i hfind
    have heq := connect_of_idx_some (some id) now s i d
      (by rw [connectIdx_truthy id hne, hfind]) hget
    rw [heq]
    exact ⟨d, hget, hdid, rfl, rfl, rfl, rfl⟩
  · unfold connect
    rw [connectIdx_falsy (some "") strTruthy_some_empty,
      connectIdx_falsy none rfl]
  · intro hnil
    apply connect_of_idx_none
    rw [connectIdx_falsy none rfl, if_neg (not_not_intro hnil)]
  · intro hnn
    obtain ⟨⟨j, b⟩, hb⟩ := bestIdx_of_ne_nil s.paired_devices hnn
    obtain ⟨hget, hmax⟩ := bestIdx_spec s.paired_devices j b hb
    have hidx : connectIdx none s = some j := by
      rw [connectIdx_falsy none rfl, if_pos hnn, hb]
      rfl
    have heq := connect_of_idx_some none now s j b hidx hget
    rw [heq]
    exact ⟨j, b, hget, hmax, rfl, rfl, rfl, rfl⟩

/-- Witness for C5 (amended): connecting to registered `device3` succeeds. -/
theorem connect_spec_witness :
    (connect (some "device3") 5 (loadSampleData 0)).1 = true := by
  obtain ⟨d, hget, hdid, h1, h2, h3, h4⟩ :=
    (connect_spec (loadSampleData 0) "device3" 5).2.1 (by decide) 2 (by decide)
  exact h1

/-- The payload `make_call` creates from its arguments. -/
def outPayload (s : BTState) (number cid : Option String) (now : Int) :
    CurrentCall :=
  { number := (resolveNumberName s.contacts number cid).1
    name := (resolveNumberName s.contacts number cid).2
    start_time := now
    duration := 0 }

/-- C7: `end_call` stamps every `ACTIVE` call's record with type
`"incoming"`, never `"outgoing"`, regardless of the call's original
direction; a record typed `"outgoing"` can only come from a call still
`OUTGOING` at end time; in particular a `make_call` followed by the
auto-connect transition and an `end_call` records `"incoming"`. -/
theorem active_call_records_incoming (s : BTState) (now : Int) :
    (∀ cc, s.connected = true → s.call_status = CallStatus.ACTIVE →
      s.current_call = some cc →
      (end_call now s).2.call_history =
        (endRecord s.call_status now cc :: s.call_history).take 50 ∧
      (endRecord s.call_status now cc).type = "incoming" ∧
      (endRecord s.call_status now cc).type ≠ "outgoing") ∧
    (∀ cc r, s.current_call = some cc → (end_call now s).1 = true →
      (end_call now s).2.call_history.head? = some r →
      r.type = "outgoing" → s.call_status = CallStatus.OUTGOING) ∧
    (∀ (number cid : Option String) (now2 : Int),
      s.connected = true → s.call_status = CallStatus.IDLE →
      (end_call now2 (connect_call (make_call number cid now s).2)).1 = true ∧
      ∃ r,
        (end_call now2 (connect_call (make_call number cid now s).2)).2.call_history =
          (r :: s.call_history).take 50 ∧
        r.type = "incoming") := by
  refine ⟨?_, ?_, ?_⟩
  · intro cc hc hA hcc
    have hG : ¬(s.connected = false ∨
        (s.call_status ≠ CallStatus.ACTIVE ∧ s.call_status ≠ CallStatus.OUTGOING ∧
         s.call_status ≠ CallStatus.INCOMING)) := by
      rw [hc, hA]
      simp
    have heq : end_call now s = (true,
        { s with
          call_status := CallStatus.IDLE
          current_call := none
          call_history :=
            truncHist (endRecord s.call_status now cc :: s.call_history) }) := by
      unfold end_call
      rw [if_neg hG, hcc]
    rw [heq]
    refine ⟨truncHist_cons_take _ _, ?_, ?_⟩
    · simp [endRecord, hA]
    · simp [endRecord, hA]
  · intro cc r hcc hsucc hhead hty
    by_cases hG : (s.connected = false ∨
        (s.call_status ≠ CallStatus.ACTIVE ∧ s.call_status ≠ CallStatus.OUTGOING ∧
         s.call_status ≠ CallStatus.INCOMING))
    · unfold end_call at hsucc
      rw [if_pos hG] at hsucc
      simp at hsucc
    · have heq : end_call now s = (true,
          { s with
            call_status := CallStatus.IDLE
            current_call := none
            call_history :=
              truncHist (endRecord s.call_status now cc :: s.call_history) }) := by
        unfold end_call
        rw [if_neg hG, hcc]
      rw [heq] at hhead
      simp only [truncHist_cons_take] at hhead
      simp at hhead
      subst hhead
      by_cases hO : s.call_status = CallStatus.OUTGOING
      · exact hO
      exfalso
      by_cases hI : s.call_status = CallStatus.INCOMING
      · have hm : (endRecord s.call_status now cc).type = "missed" := by
          simp [endRecord, hI]
        rw [hm] at hty
        exact absurd hty (by decide)
      · have hm : (endRecord s.call_status now cc).type = "incoming" := by
          simp [endRecord, hI, hO]
        rw [hm] at hty
        exact absurd hty (by decide)
  · intro number cid now2 hc hi
    have hG1 : ¬(s.connected = false ∨ s.call_status ≠ CallStatus.IDLE) := by
      rw [hc, hi]
      simp
    have h1 : (make_call number cid now s).2 =
        { s with
          call_status := CallStatus.OUTGOING
          current_call := some (outPayload s number cid now) } := by
      unfold make_call outPayload
      rw [if_neg hG1]
    have h2 : connect_call
        { s with
          call_status := CallStatus.OUTGOING
          current_call := some (outPayload s number cid now) } =
        { s with
          call_status := CallStatus.ACTIVE
          current_call := some (outPayload s number cid now) } := by
      unfold connect_call
      rfl
    have hG2 : ¬(({ s with
          call_status := CallStatus.ACTIVE
          current_call := some (outPayload s number cid now) } : BTState).connected
            = false ∨
        (({ s with
          call_status := CallStatus.ACTIVE
          current_call := some (outPayload s number cid now) } : BTState).call_status
            ≠ CallStatus.ACTIVE ∧
         ({ s with
          call_status := CallStatus.ACTIVE
          current_call := some (outPayload s number cid now) } : BTState).call_status
            ≠ CallStatus.OUTGOING ∧
         ({ s with
          call_status := CallStatus.ACTIVE
          current_call := some (outPayload s number cid now) } : BTState).call_status
            ≠ CallStatus.INCOMING)) := by
      simp [hc]
    have h3 : end_call now2
        { s with
          call_status := CallStatus.ACTIVE
          current_call := some (outPayload s number cid now) } =
        (true,
          { s with
            call_status := CallStatus.IDLE
            current_call := none
            call_history :=
              truncHist
                (endRecord CallStatus.ACTIVE now2 (outPayload s number cid now) ::
                  s.call_history) }) := by
      unfold end_call
      rw [if_neg hG2]
    rw [h1, h2, h3]
    refine ⟨rfl, endRecord CallStatus.ACTIVE now2 (outPayload s number cid now),
      truncHist_cons_take _ _, ?_⟩
    simp [endRecord]

/-- Witness for C7: the dial-connect-hang-up sequence from the connected
sample state succeeds. -/
theorem active_call_records_incoming_witness :
    (end_call 30 (connect_call (make_call (some "+15551234567") none 10
      (connect (some "device1") 1 (loadSampleData 0)).2).2)).1 = true :=
  ((active_call_records_incoming
    (connect (some "device1") 1 (loadSampleData 0)).2 10).2.2
    (some "+15551234567") none 30 (by decide) (by decide)).1

lemma batteryStep_spec (rb : Bool) (d : Device) (hb : 0 ≤ d.battery) :
    (batteryStep rb d).signal = d.signal ∧
    0 ≤ (batteryStep rb d).battery ∧
    d.battery - 1 ≤ (batteryStep rb d).battery ∧
    (batteryStep rb d).battery ≤ d.battery := by
  cases rb with
  | false => exact ⟨rfl, hb, by show d.battery - 1 ≤ d.battery; omega, le_refl _⟩
  | true =>
    exact ⟨rfl, le_max_left _ _, le_max_right _ _, max_le hb (by omega)⟩

lemma signalStep_bounds (dp : Bool) (sg : Int) (h0 : 0 ≤ sg) (h5 : sg ≤ 5) :
    0 ≤ signalStep dp sg ∧ signalStep dp sg ≤ 5 ∧
    sg - 1 ≤ signalStep dp sg ∧ signalStep dp sg ≤ sg + 1 := by
  cases dp with
  | true =>
    exact ⟨le_max_left _ _, max_le (by omega) (min_le_left _ _),
      le_trans (le_min (by omega) (by omega)) (le_max_right _ _),
      max_le (by omega) (min_le_right _ _)⟩
  | false =>
    exact ⟨le_max_left _ _, max_le (by omega) (min_le_left _ _),
      le_trans (le_min (by omega) (by omega)) (le_max_right _ _),
      max_le (by omega) (le_trans (min_le_right _ _) (by omega))⟩

lemma driftTick_eq (rb rs dp : Bool) (s : BTState) (i : Nat) (d : Device)
    (hc : s.connected = true) (ha : s.active_device = some i)
    (hd : s.paired_devices.get? i = some d) :
    driftTick rb rs dp s =
      if rs then
        match (batteryStep rb d).signal with
        | some sg =>
          (false,
            { s with paired_devices :=
                s.paired_devices.set i { batteryStep rb d with signal := some (signalStep dp sg) } })
        | none =>
          (true,
            { s with paired_devices := s.paired_devices.set i (batteryStep rb d) })
      else
        (false,
          { s with paired_devices := s.paired_devices.set i (batteryStep rb d) }) := by
  obtain ⟨con, pd, ad, cs, cc, ch, cts⟩ := s
  dsimp only at hc ha hd ⊢
  subst hc
  subst ha
  unfold driftTick
  dsimp only
  rw [hd]
  rw [if_pos rfl]

/-- C10 counterexample: the sample audio device (`device2`, no `"signal"`
key) is connected and active, and the drift tick with the signal draw taken
raises `KeyError` (`raised = true`), refuting "each background drift tick is
total (never raises)". -/
theorem drift_raises_counterexample :
    (connect (some "device2") 1 (loadSampleData 0)).2.connected = true ∧
    (activeDev (connect (some "device2") 1 (loadSampleData 0)).2).isSome = true ∧
    (driftTick false true true (connect (some "device2") 1 (loadSampleData 0)).2).1
      = true := by
  decide

/-- C10 (amended): for a connected active device that does carry a signal
field (with battery and signal in their documented ranges), the drift tick
never raises, the battery decreases by at most 1 with a floor of 0, and the
signal moves by at most 1 and stays in `[0, 5]`; a connected active device
without a signal field makes the signal branch raise `KeyError`. -/
theorem drift_tick_bounds (s : BTState) (i : Nat) (d : Device) (sg : Int)
    (randBat randSig dplus : Bool)
    (hc : s.connected = true) (ha : s.active_device = some i)
    (hd : s.paired_devices.get? i = some d) (hs : d.signal = some sg)
    (hb : 0 ≤ d.battery) (h0 : 0 ≤ sg) (h5 : sg ≤ 5) :
    (driftTick randBat randSig dplus s).1 = false ∧
    ∃ d2, (driftTick randBat randSig dplus s).2 =
        { s with paired_devices := s.paired_devices.set i d2 } ∧
      0 ≤ d2.battery ∧ d.battery - 1 ≤ d2.battery ∧ d2.battery ≤ d.battery ∧
      ∃ sg2, d2.signal = some sg2 ∧ 0 ≤ sg2 ∧ sg2 ≤ 5 ∧
        sg - 1 ≤ sg2 ∧ sg2 ≤ sg + 1 := by
  have hbs := batteryStep_spec randBat d hb
  have hsig : (batteryStep randBat d).signal = some sg := by
    rw [hbs.1, hs]
  rw [driftTick_eq randBat randSig dplus s i d hc ha hd]
  cases randSig with
  | false =>
    exact ⟨rfl, batteryStep randBat d, rfl, hbs.2.1, hbs.2.2.1, hbs.2.2.2,
      sg, hsig, h0, h5, by omega, by omega⟩
  | true =>
    rw [hsig]
    have hss := signalStep_bounds dplus sg h0 h5
    exact ⟨rfl,
      { batteryStep randBat d with signal := some (signalStep dplus sg) },
      rfl, hbs.2.1, hbs.2.2.1, hbs.2.2.2,
      signalStep dplus sg, rfl, hss.1, hss.2.1, hss.2.2.1, hss.2.2.2⟩

/-- Witness for C10 (amended): a tick on the connected sample phone
(signal 4) does not raise. -/
theorem drift_tick_bounds_witness :
    (driftTick true true true
      (connect (some "device1") 1 (loadSampleData 0)).2).1 = false :=
  (drift_tick_bounds (connect (some "device1") 1 (loadSampleData 0)).2 0
    { id := "device1", name := "Pixel 7 Pro", type := BluetoothDeviceType.PHONE,
      battery := 85, signal := some 4, last_connected := some 1 }
    4 true true true (by decide) (by decide) (by decide) (by decide)
    (by decide) (by decide) (by decide)).1
